import Mathlib

/-!
Verification of the PyWeather upload script `scripts/vpro-to-wu.py`.

The script is shallowly embedded below.  Numeric sensor readings are
modelled as rationals (the station reports decimal values such as 200.1);
the gust counter is an integer, as in Python.  The script targets
Python 2 (2010-era code), where `/` on two integers is floor division,
so the counter reset `GUST_UPDATE_PER * 60 / delay` is embedded with
`Int.fdiv`.
-/

namespace PyWeather

/-- Line 26: `ARCHIVE_PER = 10`, intervals (in minutes) between archive records. -/
def ARCHIVE_PER : ℤ := 10

/-- Line 27: `GUST_UPDATE_PER = 10`, minutes to report last gust reading. -/
def GUST_UPDATE_PER : ℤ := 10

/-- Line 28: `GUST_MPH_MIN = 7`, minimum mph of gust above avg wind speed to report. -/
def GUST_MPH_MIN : ℚ := 7

/-- The archive record nested in a sample: `rec['WindHi']`, `rec['WindHiDir']`. -/
structure ArchiveRec where
  windHi : ℚ
  windHiDir : ℚ
  deriving DecidableEq

/-- The station's field mapping `station.fields[...]` as read by the script.
`archive` models `station.fields['Archive']`, which is a record when an
interval boundary was crossed and `None` otherwise. -/
structure Sample where
  tempOut : ℚ
  windSpeed10Min : ℚ
  archive : Option ArchiveRec
  pressure : ℚ
  dewPoint : ℚ
  humOut : ℚ
  rainRate : ℚ
  rainDay : ℚ
  dateStampUtc : String
  windDir : ℚ
  deriving DecidableEq

/-- The gust value held by `WindGust`: either the sentinel
`NO_VALUE = ('NA','NA')` (line 35) or a `(speed, direction)` pair. -/
inductive GustVal where
  | NO_VALUE : GustVal
  | gust (speed dir : ℚ) : GustVal
  deriving DecidableEq

/-- The mutable state of the `WindGust` object: `self.value`, `self.count`. -/
structure WindGustState where
  value : GustVal
  count : ℤ
  deriving DecidableEq

/-- Lines 37-39: `WindGust.__init__` sets `value = NO_VALUE`, `count = 0`. -/
def WindGust.init : WindGustState :=
  { value := GustVal.NO_VALUE, count := 0 }

/-- Lines 46-54 of `WindGust.get`: process new data.  If an archive record
is present, compare `WindHi` against `WindSpeed10Min + GUST_MPH_MIN`;
above the threshold install the gust and reset the counter to
`GUST_UPDATE_PER * 60 / delay` (Python 2 integer floor division), else
reset the value to the sentinel (the counter is left unchanged). -/
def WindGust.processNew (st : WindGustState) (station : Sample) (delay : ℤ) :
    WindGustState :=
  match station.archive with
  | some rec =>
      let threshold := station.windSpeed10Min + GUST_MPH_MIN
      if threshold ≤ rec.windHi then
        { value := GustVal.gust rec.windHi rec.windHiDir,
          count := Int.fdiv (GUST_UPDATE_PER * 60) delay }
      else
        { st with value := GustVal.NO_VALUE }
  | none => st

/-- Lines 56-60 of `WindGust.get`: if `self.count` is truthy (nonzero)
decrement it, else force the value to the sentinel. -/
def WindGust.expire (st : WindGustState) : WindGustState :=
  if st.count ≠ 0 then { st with count := st.count - 1 }
  else { st with value := GustVal.NO_VALUE }

/-- Lines 41-63: `WindGust.get(self, station, delay)`.  Returns the gust
value together with the updated state. -/
def WindGust.get (st : WindGustState) (station : Sample) (delay : ℤ) :
    GustVal × WindGustState :=
  let st2 := WindGust.expire (WindGust.processNew st station delay)
  (st2.value, st2)

/-- `True` when the sample carries an archive record whose `WindHi` meets
the inclusive gust threshold (the condition of lines 48-50). -/
def hasQualifyingGust (s : Sample) : Bool :=
  match s.archive with
  | some rec => decide (s.windSpeed10Min + GUST_MPH_MIN ≤ rec.windHi)
  | none => false

/-- Line 31: `class NoSensorException(Exception)`, plus the other exception a
cycle can raise.  `typeErrorGetArity` models the Python `TypeError` raised at
line 79, where `WindGust.get( station )` is invoked with a single argument
although the method signature (line 41) requires `(station, delay)`. -/
inductive Fault where
  | NoSensorException (value : ℚ) : Fault
  | typeErrorGetArity : Fault
  deriving DecidableEq

/-- The eleven named fields staged by `net.set(...)` at lines 82-93, in the
source's keyword names.  Gust fields may hold the `'NA'` sentinel. -/
structure Payload where
  pressure : ℚ
  dewpoint : ℚ
  humidity : ℚ
  tempf : ℚ
  rainin : ℚ
  rainday : ℚ
  dateutc : String
  windspeed : ℚ
  winddir : ℚ
  windgust : GustVal
  windgustdir : GustVal
  deriving DecidableEq

/-- Record of the calls made on the publisher collaborator `net`. -/
structure NetCalls where
  setCalls : List Payload
  publishCalls : List (String × String)
  deriving DecidableEq

/-- No calls on the publisher. -/
def NetCalls.empty : NetCalls := { setCalls := [], publishCalls := [] }

deriving instance DecidableEq for Except

/-- Observable result of one `weather_update` cycle: the outcome (normal
return or the exception that propagated), the gust tracker state after the
cycle, and the calls made on the publisher. -/
structure CycleResult where
  outcome : Except Fault Unit
  gust : WindGustState
  net : NetCalls
  deriving DecidableEq

/-- Lines 67-96: `weather_update(station, net, pwsid, password)`, after
`station.parse()` has produced `sample`.  Line 74 raises
`NoSensorException` when `TempOut > 200`.  Otherwise line 79 executes
`gust, gust_dir = WindGust.get( station )`: the bound method requires two
arguments `(station, delay)` but receives only one, so Python raises
`TypeError` at the call site — before the gust state is read or mutated and
before `net.set`/`net.publish` run.  Hence no cycle reaches lines 82-96. -/
def weather_update (sample : Sample) (st : WindGustState)
    (pwsid password : String) : CycleResult :=
  if 200 < sample.tempOut then
    { outcome := Except.error (Fault.NoSensorException sample.tempOut),
      gust := st, net := NetCalls.empty }
  else
    { outcome := Except.error Fault.typeErrorGetArity,
      gust := st, net := NetCalls.empty }

/-- A log line produced by the main loop: `log.error(e)` at line 158. -/
inductive LogEvent where
  | error (f : Fault) : LogEvent
  deriving DecidableEq

/-- Lines 155-158: one iteration body.  `weather_update` runs inside
`try`; `except (Exception) as e` catches any exception and logs it, so the
iteration always completes, carrying the (possibly updated) gust state. -/
def loop_body (st : WindGustState) (sample : Sample)
    (pwsid password : String) : WindGustState × List LogEvent :=
  let r := weather_update sample st pwsid password
  match r.outcome with
  | Except.ok _ => (r.gust, [])
  | Except.error f => (r.gust, [LogEvent.error f])

/-- Lines 149-158: the `while True` loop, run over a finite stream of
samples (one per aligned tick).  Returns the final gust state and the log. -/
def main_loop (pwsid password : String) :
    List Sample → WindGustState → WindGustState × List LogEvent
  | [], st => (st, [])
  | s :: rest, st =>
      let step := loop_body st s pwsid password
      let tail := main_loop pwsid password rest step.1
      (tail.1, step.2 ++ tail.2)

/-- The end-to-end sample of §8 of the spec: `tempOut 72.0`,
`windSpeed10Min 5`, archive record `windHi 15, windHiDir 270`. -/
def c2Sample : Sample :=
  { tempOut := 72, windSpeed10Min := 5,
    archive := some { windHi := 15, windHiDir := 270 },
    pressure := 0, dewPoint := 0, humOut := 0, rainRate := 0, rainDay := 0,
    dateStampUtc := "", windDir := 0 }

/-- The same sample with no archive record (no interval boundary crossed). -/
def c2NoArchive : Sample := { c2Sample with archive := none }

/-- Gust tracker state after `n` calls of the §8 end-to-end scenario:
call 1 presents `c2Sample` (the qualifying archive record), calls 2, 3, ...
present `c2NoArchive`, all with the configured 60-second poll interval. -/
def c2State : ℕ → WindGustState
  | 0 => WindGust.init
  | 1 => (WindGust.get WindGust.init c2Sample 60).2
  | n + 2 => (WindGust.get (c2State (n + 1)) c2NoArchive 60).2

/-- Value returned by the `n`-th call of the §8 end-to-end scenario. -/
def c2Ret : ℕ → GustVal
  | 0 => GustVal.NO_VALUE
  | 1 => (WindGust.get WindGust.init c2Sample 60).1
  | n + 2 => (WindGust.get (c2State (n + 1)) c2NoArchive 60).1

/-- A sample whose archive record sits exactly on the gust threshold:
`windHi = windSpeed10Min + GUST_MPH_MIN = 5 + 7 = 12`. -/
def c6Boundary : Sample :=
  { c2Sample with archive := some { windHi := 12, windHiDir := 270 } }

/-- A sample whose archive record sits 0.1 mph below the gust threshold:
`windHi = 11.9 = 12 - 0.1`. -/
def c6Below : Sample :=
  { c2Sample with archive := some { windHi := 119 / 10, windHiDir := 270 } }

/-! ## Helper lemmas -/

lemma fdiv_600_60 : Int.fdiv 600 60 = 10 := by decide

lemma fdiv_600_7 : Int.fdiv 600 7 = 85 := by decide

/-- The counter value installed by a reset is nonnegative for positive delay. -/
lemma reset_count_nonneg {d : ℤ} (hd : 0 < d) :
    0 ≤ Int.fdiv (GUST_UPDATE_PER * 60) d := by
  rw [Int.fdiv_eq_ediv _ (le_of_lt hd)]
  exact Int.ediv_nonneg (by norm_num [GUST_UPDATE_PER]) (le_of_lt hd)

/-- The counter value installed by a reset is at least one when the poll
interval does not exceed the 600-second reporting window. -/
lemma reset_count_pos {d : ℤ} (hd : 0 < d) (hd6 : d ≤ 600) :
    1 ≤ Int.fdiv (GUST_UPDATE_PER * 60) d := by
  rw [Int.fdiv_eq_ediv _ (le_of_lt hd), Int.le_ediv_iff_mul_le hd]
  norm_num [GUST_UPDATE_PER]
  exact hd6

/-- Lines 46-48: with no archive record, the process-new-data step is a
no-op. -/
lemma processNew_no_archive {s : Sample} (st : WindGustState) (d : ℤ)
    (h : s.archive = none) : WindGust.processNew st s d = st := by
  simp [WindGust.processNew, h]

/-- Lines 49-52: an archive record meeting the threshold installs the gust
and resets the counter. -/
lemma processNew_qualifying {s : Sample} {rec : ArchiveRec} (st : WindGustState)
    (d : ℤ) (h : s.archive = some rec)
    (hge : s.windSpeed10Min + GUST_MPH_MIN ≤ rec.windHi) :
    WindGust.processNew st s d =
      { value := GustVal.gust rec.windHi rec.windHiDir,
        count := Int.fdiv (GUST_UPDATE_PER * 60) d } := by
  simp [WindGust.processNew, h, hge]

/-- Lines 53-54: an archive record below the threshold resets the value to
the sentinel, leaving the counter unchanged. -/
lemma processNew_below {s : Sample} {rec : ArchiveRec} (st : WindGustState)
    (d : ℤ) (h : s.archive = some rec)
    (hlt : rec.windHi < s.windSpeed10Min + GUST_MPH_MIN) :
    WindGust.processNew st s d = { st with value := GustVal.NO_VALUE } := by
  simp [WindGust.processNew, h, not_le.mpr hlt]

/-- Lines 57-58: a nonzero counter is decremented. -/
lemma expire_of_ne_zero {st : WindGustState} (h : st.count ≠ 0) :
    WindGust.expire st = { st with count := st.count - 1 } := by
  simp [WindGust.expire, h]

/-- Lines 59-60: a zero counter forces the sentinel. -/
lemma expire_of_zero {st : WindGustState} (h : st.count = 0) :
    WindGust.expire st = { st with value := GustVal.NO_VALUE } := by
  simp [WindGust.expire, h]

/-- `hasQualifyingGust` holds exactly when an archive record is present and
meets the inclusive threshold. -/
lemma hasQualifyingGust_eq_true_iff (s : Sample) :
    hasQualifyingGust s = true ↔
      ∃ rec, s.archive = some rec
        ∧ s.windSpeed10Min + GUST_MPH_MIN ≤ rec.windHi := by
  cases harch : s.archive with
  | none => simp [hasQualifyingGust, harch]
  | some rec => simp [hasQualifyingGust, harch]

/-- Without a qualifying gust the process-new-data step leaves the counter
unchanged. -/
lemma processNew_count_not_qualifying (st : WindGustState) {s : Sample} (d : ℤ)
    (h : hasQualifyingGust s = false) :
    (WindGust.processNew st s d).count = st.count := by
  cases harch : s.archive with
  | none => rw [processNew_no_archive st d harch]
  | some rec =>
      have h' := h
      simp only [hasQualifyingGust, harch, decide_eq_false_iff_not, not_le] at h'
      rw [processNew_below st d harch h']

/-- Without a qualifying gust, one `get` call moves the counter to
`max (count - 1) 0`. -/
lemma get_count_not_qualifying (st : WindGustState) {s : Sample} (d : ℤ)
    (h : hasQualifyingGust s = false) (hc : 0 ≤ st.count) :
    ((WindGust.get st s d).2).count = max (st.count - 1) 0 := by
  have hcount := processNew_count_not_qualifying st d h
  have hget : (WindGust.get st s d).2
      = WindGust.expire (WindGust.processNew st s d) := rfl
  rw [hget]
  by_cases h0 : st.count = 0
  · rw [expire_of_zero (by rw [hcount]; exact h0)]
    show (WindGust.processNew st s d).count = max (st.count - 1) 0
    rw [hcount]
    omega
  · rw [expire_of_ne_zero (by rw [hcount]; exact h0)]
    show (WindGust.processNew st s d).count - 1 = max (st.count - 1) 0
    rw [hcount]
    omega

/-! ## Claims -/

/-- C1: the claim states that `weather_update` invokes `WindGust.get` with
both the current sample and the configured poll interval and that the call
succeeds every cycle.  In the code the call at line 79 passes only the
sample, so on any sample that passes validation the cycle ends with a
`TypeError` instead of a gust pair: here evaluated at the in-range §8
sample. -/
theorem C1_gust_call_raises_type_error :
    (weather_update c2Sample WindGust.init "WUID" "secret").outcome
      = Except.error Fault.typeErrorGetArity := by
  norm_num [weather_update, c2Sample]

/-- C2: the §8 end-to-end scenario for the gust tracker, exercised on
`WindGust.get` with the configured 60-second poll interval.  The first call
(archive record `windHi 15, windHiDir 270`, average wind 5) computes
threshold 12, resets the counter to 10 and returns `(15, 270)`; the next
nine calls with no archive record keep returning `(15, 270)` while the
counter strictly decreases 9, 8, ..., 0; the eleventh call returns the
sentinel. -/
theorem C2_end_to_end :
    c2Sample.windSpeed10Min + GUST_MPH_MIN = 12 ∧
    (WindGust.processNew WindGust.init c2Sample 60).count = 10 ∧
    c2Ret 1 = GustVal.gust 15 270 ∧
    (c2State 1).count = 9 ∧
    c2Ret 2 = GustVal.gust 15 270 ∧ (c2State 2).count = 8 ∧
    c2Ret 3 = GustVal.gust 15 270 ∧ (c2State 3).count = 7 ∧
    c2Ret 4 = GustVal.gust 15 270 ∧ (c2State 4).count = 6 ∧
    c2Ret 5 = GustVal.gust 15 270 ∧ (c2State 5).count = 5 ∧
    c2Ret 6 = GustVal.gust 15 270 ∧ (c2State 6).count = 4 ∧
    c2Ret 7 = GustVal.gust 15 270 ∧ (c2State 7).count = 3 ∧
    c2Ret 8 = GustVal.gust 15 270 ∧ (c2State 8).count = 2 ∧
    c2Ret 9 = GustVal.gust 15 270 ∧ (c2State 9).count = 1 ∧
    c2Ret 10 = GustVal.gust 15 270 ∧ (c2State 10).count = 0 ∧
    c2Ret 11 = GustVal.NO_VALUE := by
  refine ⟨?_, ?_, ?_, ?_, ?_, ?_, ?_, ?_, ?_, ?_, ?_, ?_, ?_, ?_, ?_, ?_,
    ?_, ?_, ?_, ?_, ?_, ?_, ?_⟩ <;>
    norm_num [c2Ret, c2State, WindGust.get, WindGust.processNew, WindGust.expire,
      c2NoArchive, c2Sample, GUST_MPH_MIN, GUST_UPDATE_PER, WindGust.init, fdiv_600_60]

/-- C5: `weather_update` raises `NoSensorException` naming the out-of-range
temperature exactly when `TempOut` strictly exceeds 200; in particular a
reading of exactly 200 passes the validation while 200.1 raises the
fault. -/
theorem C5_temperature_validation :
    (∀ (sample : Sample) (st : WindGustState) (pwsid password : String),
        (weather_update sample st pwsid password).outcome
            = Except.error (Fault.NoSensorException sample.tempOut)
          ↔ 200 < sample.tempOut) ∧
    (weather_update { c2Sample with tempOut := 200 } WindGust.init "WUID"
          "secret").outcome
        ≠ Except.error (Fault.NoSensorException 200) ∧
    (weather_update { c2Sample with tempOut := 2001 / 10 } WindGust.init "WUID"
          "secret").outcome
        = Except.error (Fault.NoSensorException (2001 / 10)) := by
  refine ⟨fun sample st pwsid password => ?_, ?_, ?_⟩
  · by_cases h : 200 < sample.tempOut
    · simp [weather_update, h]
    · simp [weather_update, h]
  · intro hcontra
    rw [weather_update] at hcontra
    norm_num [c2Sample] at hcontra
    exact Fault.noConfusion hcontra
  · norm_num [weather_update, c2Sample]

/-- C9: the claim states that every validated cycle stages the eleven named
fields via `net.set` and then calls `net.publish` once.  Because line 79
raises `TypeError` before line 82, no cycle ever reaches `net.set` or
`net.publish`: here evaluated at the in-range §8 sample, where both call
lists stay empty. -/
theorem C9_payload_never_staged :
    (weather_update c2Sample WindGust.init "WUID" "secret").net.setCalls = []
      ∧ (weather_update c2Sample WindGust.init "WUID" "secret").net.publishCalls
          = [] := by
  norm_num [weather_update, c2Sample, NetCalls.empty]

/-- C10: when the sample's temperature exceeds 200, `weather_update` raises
`NoSensorException` at line 74, before the gust computation of line 79 and
the publisher calls of lines 82-96: the gust state is returned unchanged
and neither `net.set` nor `net.publish` is invoked. -/
theorem C10_validation_failure_atomic (sample : Sample) (st : WindGustState)
    (pwsid password : String) (h : 200 < sample.tempOut) :
    weather_update sample st pwsid password =
      { outcome := Except.error (Fault.NoSensorException sample.tempOut),
        gust := st, net := NetCalls.empty } := by
  simp [weather_update, h]

/-- Witness for C10 at the §8 sample overheated to 250 degrees. -/
theorem C10_witness :
    weather_update { c2Sample with tempOut := 250 } WindGust.init "WUID" "secret"
      = { outcome := Except.error (Fault.NoSensorException 250),
          gust := WindGust.init, net := NetCalls.empty } := by
  have h := C10_validation_failure_atomic { c2Sample with tempOut := 250 }
    WindGust.init "WUID" "secret" (by norm_num [c2Sample])
  simpa [c2Sample] using h

/-- C3 counterexample: with poll interval 7 seconds and a qualifying gust,
line 52 resets the counter to `600 / 7 = 85` (Python 2 integer floor
division), which differs from `ceil(600 / 7) = 86` stated by the claim. -/
theorem C3_counterexample :
    (WindGust.processNew WindGust.init c2Sample 7).count
      ≠ ⌈(600 : ℚ) / (7 : ℚ)⌉ := by
  have h1 : (WindGust.processNew WindGust.init c2Sample 7).count = 85 := by
    norm_num [WindGust.processNew, c2Sample, GUST_MPH_MIN, GUST_UPDATE_PER,
      WindGust.init, fdiv_600_7]
  have h2 : (⌈(600 : ℚ) / (7 : ℚ)⌉ : ℤ) = 86 := by
    rw [Int.ceil_eq_iff]
    norm_num
  rw [h1, h2]
  norm_num

/-- C3 amended: for every poll interval d > 0, a qualifying gust resets the
counter to floor(600 / d) (Python 2 integer floor division, not the
ceiling), and a subsequent call carrying no new qualifying gust decrements
it monotonically toward zero: the counter becomes `max (count - 1) 0`. -/
theorem C3_amended_floor_reset (st st2 : WindGustState) (s s2 : Sample)
    (rec : ArchiveRec) (d : ℤ) (hd : 0 < d) (harch : s.archive = some rec)
    (hq : s.windSpeed10Min + GUST_MPH_MIN ≤ rec.windHi)
    (h2 : hasQualifyingGust s2 = false) (hc : 0 ≤ st2.count) :
    (WindGust.processNew st s d).count = Int.fdiv 600 d ∧
    ((WindGust.get st2 s2 d).2).count = max (st2.count - 1) 0 := by
  constructor
  · rw [processNew_qualifying st d harch hq]
    norm_num [GUST_UPDATE_PER]
  · exact get_count_not_qualifying st2 d h2 hc

/-- Witness for C3 amended: reset at interval 60 gives `600 / 60`, and a
decay call takes the counter from 9 to `max (9 - 1) 0 = 8`. -/
theorem C3_amended_witness :
    (WindGust.processNew WindGust.init c2Sample 60).count = Int.fdiv 600 60 ∧
    ((WindGust.get { value := GustVal.gust 15 270, count := 9 }
        c2NoArchive 60).2).count = max ((9 : ℤ) - 1) 0 :=
  C3_amended_floor_reset WindGust.init
    { value := GustVal.gust 15 270, count := 9 } c2Sample c2NoArchive
    { windHi := 15, windHiDir := 270 } 60 (by norm_num) rfl
    (by norm_num [c2Sample, GUST_MPH_MIN]) (by rfl) (by norm_num)

/-- C4: invariant preserved by every `WindGust.get` call, for every sample
and poll interval d > 0: starting from a nonnegative counter the counter
stays nonnegative; without a new qualifying gust the call never increases
it; and it can increase only when a new qualifying gust (archive record
with `windHi ≥ windSpeed10Min + 7`) is observed. -/
theorem C4_counter_invariant (st : WindGustState) (s : Sample) (d : ℤ)
    (hd : 0 < d) (hc : 0 ≤ st.count) :
    0 ≤ ((WindGust.get st s d).2).count ∧
    (hasQualifyingGust s = false →
        ((WindGust.get st s d).2).count ≤ st.count) ∧
    (st.count < ((WindGust.get st s d).2).count →
        hasQualifyingGust s = true) := by
  by_cases hqb : hasQualifyingGust s = true
  · obtain ⟨rec, harch, hge⟩ := (hasQualifyingGust_eq_true_iff s).mp hqb
    have hpn := processNew_qualifying st d harch hge
    have hr0 := reset_count_nonneg hd
    have hget : (WindGust.get st s d).2
        = WindGust.expire (WindGust.processNew st s d) := rfl
    have hmain : 0 ≤ ((WindGust.get st s d).2).count := by
      rw [hget, hpn]
      by_cases h0 : Int.fdiv (GUST_UPDATE_PER * 60) d = 0
      · rw [expire_of_zero (by simpa using h0)]
        simpa using hr0
      · rw [expire_of_ne_zero (by simpa using h0)]
        show Int.fdiv (GUST_UPDATE_PER * 60) d - 1 ≥ 0
        omega
    refine ⟨hmain, fun hfalse => absurd (hfalse ▸ hqb) ?_, fun _ => hqb⟩
    simp
  · have hqf : hasQualifyingGust s = false := by
      revert hqb
      cases hasQualifyingGust s <;> simp
    have hcnt := get_count_not_qualifying st d hqf hc
    refine ⟨?_, fun _ => ?_, fun hlt => ?_⟩
    · rw [hcnt]; omega
    · rw [hcnt]; omega
    · exfalso
      rw [hcnt] at hlt
      omega

/-- Witness for C4 at the §8 sample with the configured 60-second
interval. -/
theorem C4_witness :
    0 ≤ ((WindGust.get WindGust.init c2Sample 60).2).count ∧
    (hasQualifyingGust c2Sample = false →
        ((WindGust.get WindGust.init c2Sample 60).2).count
          ≤ WindGust.init.count) ∧
    (WindGust.init.count < ((WindGust.get WindGust.init c2Sample 60).2).count →
        hasQualifyingGust c2Sample = true) :=
  C4_counter_invariant WindGust.init c2Sample 60 (by norm_num)
    (by norm_num [WindGust.init])

/-- C6: the gust threshold comparison of line 50 is inclusive.  For every
sample whose archive record has `windHi` exactly equal to
`windSpeed10Min + 7`, the gust `(windHi, windHiDir)` is returned (for any
poll interval 0 < d ≤ 600, which includes the configured 60 seconds); with
`windHi` equal to threshold − 0.1 the sentinel is returned and the stored
value resets to the sentinel. -/
theorem C6_threshold_boundary (st : WindGustState) (s : Sample)
    (rec : ArchiveRec) (d : ℤ) (harch : s.archive = some rec) (hd : 0 < d)
    (hd6 : d ≤ 600) :
    (rec.windHi = s.windSpeed10Min + GUST_MPH_MIN →
        (WindGust.get st s d).1 = GustVal.gust rec.windHi rec.windHiDir) ∧
    (rec.windHi = s.windSpeed10Min + GUST_MPH_MIN - 1 / 10 →
        (WindGust.get st s d).1 = GustVal.NO_VALUE ∧
          ((WindGust.get st s d).2).value = GustVal.NO_VALUE) := by
  have hget1 : (WindGust.get st s d).1
      = (WindGust.expire (WindGust.processNew st s d)).value := rfl
  have hget2 : (WindGust.get st s d).2
      = WindGust.expire (WindGust.processNew st s d) := rfl
  constructor
  · intro heq
    have hge : s.windSpeed10Min + GUST_MPH_MIN ≤ rec.windHi := le_of_eq heq.symm
    have hpn := processNew_qualifying st d harch hge
    have hpos := reset_count_pos hd hd6
    rw [hget1, hpn, expire_of_ne_zero (by show Int.fdiv (GUST_UPDATE_PER * 60) d ≠ 0; omega)]
  · intro heq
    have hlt : rec.windHi < s.windSpeed10Min + GUST_MPH_MIN := by
      rw [heq]
      exact sub_lt_self _ (by norm_num)
    have hpn := processNew_below st d harch hlt
    rw [hget1, hget2, hpn]
    by_cases h0 : st.count = 0
    · rw [expire_of_zero (by simpa using h0)]
      exact ⟨rfl, rfl⟩
    · rw [expire_of_ne_zero (by simpa using h0)]
      exact ⟨rfl, rfl⟩

/-- Witness for C6: with average wind 5 the threshold is 12; an archive
record at exactly 12 is reported, one at 11.9 yields the sentinel. -/
theorem C6_witness :
    (WindGust.get WindGust.init c6Boundary 60).1 = GustVal.gust 12 270 ∧
    (WindGust.get WindGust.init c6Below 60).1 = GustVal.NO_VALUE := by
  constructor
  · have h := (C6_threshold_boundary WindGust.init c6Boundary
        { windHi := 12, windHiDir := 270 } 60 rfl (by norm_num)
        (by norm_num)).1 (by norm_num [c6Boundary, c2Sample, GUST_MPH_MIN])
    simpa using h
  · have h := ((C6_threshold_boundary WindGust.init c6Below
        { windHi := 119 / 10, windHiDir := 270 } 60 rfl (by norm_num)
        (by norm_num)).2 (by norm_num [c6Below, c2Sample, GUST_MPH_MIN])).1
    simpa using h

/-- C7: with no archive record in the sample, `WindGust.get` never installs
a new gust value: the returned value is the stored one or the sentinel, the
call only decrements a positive counter (keeping the stored value), and a
zero counter forces the value to the sentinel. -/
theorem C7_no_archive_never_installs (st : WindGustState) (s : Sample)
    (d : ℤ) (harch : s.archive = none) :
    ((WindGust.get st s d).1 = st.value
        ∨ (WindGust.get st s d).1 = GustVal.NO_VALUE) ∧
    (0 < st.count →
        WindGust.get st s d = (st.value, { st with count := st.count - 1 })) ∧
    (st.count = 0 →
        WindGust.get st s d
          = (GustVal.NO_VALUE, { st with value := GustVal.NO_VALUE })) := by
  have hpn := processNew_no_archive st d harch
  have hget : WindGust.get st s d
      = ((WindGust.expire (WindGust.processNew st s d)).value,
          WindGust.expire (WindGust.processNew st s d)) := rfl
  by_cases h0 : st.count = 0
  · rw [hget, hpn, expire_of_zero h0]
    exact ⟨Or.inr rfl, fun hpos => absurd h0 (by omega), fun _ => rfl⟩
  · rw [hget, hpn, expire_of_ne_zero h0]
    exact ⟨Or.inl rfl, fun _ => rfl, fun hz => absurd hz h0⟩

/-- Witness for C7: a stored gust with three remaining ticks survives a
no-archive call with the counter decremented to two. -/
theorem C7_witness :
    WindGust.get { value := GustVal.gust 15 270, count := 3 } c2NoArchive 60
      = (GustVal.gust 15 270,
          { value := GustVal.gust 15 270, count := 2 }) := by
  have h := (C7_no_archive_never_installs
      { value := GustVal.gust 15 270, count := 3 } c2NoArchive 60 rfl).2.1
    (by norm_num)
  simpa using h

/-- C8: the main loop wraps `weather_update` in a catch-all.  Any exception
raised during a cycle is logged as one error event, the cycle is abandoned
(the loop state is whatever the failed cycle left), and the loop continues
with the remaining ticks; no exception terminates the loop. -/
theorem C8_catch_all_continues (pwsid password : String) (s : Sample)
    (rest : List Sample) (st : WindGustState) (f : Fault)
    (herr : (weather_update s st pwsid password).outcome = Except.error f) :
    main_loop pwsid password (s :: rest) st =
      ((main_loop pwsid password rest
          ((weather_update s st pwsid password).gust)).1,
        LogEvent.error f
          :: (main_loop pwsid password rest
              ((weather_update s st pwsid password).gust)).2) := by
  simp [main_loop, loop_body, herr]

/-- Witness for C8: one faulting cycle on the §8 sample is logged and the
loop reaches the end of the stream. -/
theorem C8_witness :
    main_loop "WUID" "secret" [c2Sample] WindGust.init
      = (WindGust.init, [LogEvent.error Fault.typeErrorGetArity]) := by
  have h := C8_catch_all_continues "WUID" "secret" c2Sample [] WindGust.init
    Fault.typeErrorGetArity (by norm_num [weather_update, c2Sample])
  simpa [main_loop, weather_update, c2Sample] using h

end PyWeather
